import Mathlib

/-!
Verification of the consensus synchronization pipeline of the muta node
(`core/consensus/src/consensus.rs`, `adapter.rs`, `util.rs`).

The shallow embedding models the collaborator calls made by the sync driver
(`ConsensusEngine` methods, which the spec describes as thin pass-throughs to
the adapter and storage) as oracles collected in an `Engine` record, and makes
the side effects of a run of `update_epoch` observable as a list of
`SyncEvent`s, in the order the corresponding calls are issued by the source.
`u64` values are modelled as `Nat` (no arithmetic in the sync driver can
overflow: it only increments epoch ids), and `Bytes` as `List Nat`.
-/

namespace Muta

/-- Hashes are opaque identifiers to the sync driver; modelled as `Nat`. -/
abbrev Hash := Nat

/-- Byte strings (`bytes::Bytes`), modelled as lists of bytes. -/
abbrev Bytes := List Nat

/-- Modelled from the spec (§3): `protocol::types::Validator` (the `protocol`
crate is not under src/); field names follow `consensus.rs::gen_overlord_status`,
which reads `address`, `propose_weight` and `vote_weight`. -/
structure Validator where
  address : Nat
  proposeWeight : Nat
  voteWeight : Nat
deriving DecidableEq, Repr

/-- Modelled from the spec (§3): `protocol::types::Proof` — "epoch id, round,
epoch hash, aggregated signature, voter bitmap" (the `protocol` crate is not
under src/). -/
structure Proof where
  epochId : Nat
  round : Nat
  epochHash : Hash
  signature : Bytes
  bitmap : Bytes
deriving DecidableEq, Repr

/-- Modelled from the spec (§3): the epoch header — "epoch id, previous hash,
timestamp, state root, receipt root(s), cycle usage, proposer, proof,
validator set and version" (the `protocol` crate is not under src/). The sync
driver reads only `preHash` and `proof`. -/
structure EpochHeader where
  epochId : Nat
  preHash : Hash
  timestamp : Nat
  stateRoot : Hash
  receiptRoot : List Hash
  cyclesUsed : Nat
  proposer : Nat
  proof : Proof
  validators : List Validator
  version : Nat
deriving DecidableEq, Repr

/-- Modelled from the spec (§3): `protocol::types::Epoch` — header plus the
ordered list of transaction hashes (the `protocol` crate is not under src/). -/
structure Epoch where
  header : EpochHeader
  orderedTxHashes : List Hash
deriving DecidableEq, Repr

/-- Modelled from the spec (§3): `protocol::types::SignedTransaction` — raw
transaction plus signer public key and signature, hashed for identity (the
`protocol` crate is not under src/). Opaque to the sync driver. -/
structure SignedTransaction where
  raw : Bytes
  txHash : Hash
  pubkey : Bytes
  signature : Bytes
deriving DecidableEq, Repr

/-- Modelled from the spec (§3): `protocol::types::Receipt` — response
payload, emitted events, cycles used (the `protocol` crate is not under
src/). Only needed to give a type to the save-receipts persistence call. -/
structure Receipt where
  response : Bytes
  events : List Bytes
  cyclesUsed : Nat
deriving DecidableEq, Repr

/-- The `MsgType` tags used by `ConsensusError::DecodeErr` in
`consensus.rs` (`SignedProposal`, `SignedVote`, `AggregateVote`,
`RichEpochID`); the defining `lib.rs` of the consensus crate is not under
src/, so the variant list is taken from the uses in `consensus.rs`. -/
inductive MsgType where
  | signedProposal
  | signedVote
  | aggregateVote
  | richEpochID
deriving DecidableEq, Repr

/-- Modelled from the spec (§7) and the constructor uses in `consensus.rs`:
`ConsensusError` (its defining `lib.rs` is not under src/).  `decodeErr`,
`overlordErr`, `syncEpochHashErr`, `cryptoErr` and `other` are constructed in
`consensus.rs`/`util.rs`; `proofInvalid` is the spec's `ProofInvalid` sync
error; `external` wraps an error of a collaborator (engine / storage /
network) propagated unchanged by the `?` operator. -/
inductive ConsensusError where
  | decodeErr : MsgType → ConsensusError
  | overlordErr : Nat → ConsensusError
  | syncEpochHashErr : Nat → ConsensusError
  | proofInvalid : Nat → ConsensusError
  | cryptoErr : Nat → ConsensusError
  | other : String → ConsensusError
  | external : Nat → ConsensusError
deriving DecidableEq, Repr

/-- `overlord::types::AggregatedSignature` as consumed by
`util.rs::verify_aggregated_signature` (the overlord crate is an external
collaborator): an aggregated signature plus a voter bitmap. -/
structure AggregatedSignature where
  signature : Bytes
  addressBitmap : Bytes
deriving DecidableEq, Repr

/-- `util.rs::OverlordCrypto`: a secp256k1 key pair. -/
structure OverlordCrypto where
  publicKey : Bytes
  privateKey : Bytes
deriving DecidableEq, Repr

/-- `util.rs::OverlordCrypto::aggregate_signatures`: ignores its arguments
and returns the empty byte string (`Bytes::new()`). The error type of the
boxed collaborator error is abstract (`Nat`). -/
def aggregate_signatures (_c : OverlordCrypto) (_signatures : List Bytes)
    (_voters : List Bytes) : Except Nat Bytes :=
  .ok []

/-- `util.rs::OverlordCrypto::verify_aggregated_signature`: ignores its
argument and returns `Ok(())`. -/
def verify_aggregated_signature (_c : OverlordCrypto)
    (_aggregatedSignature : AggregatedSignature) : Except Nat Unit :=
  .ok ()

/-- `consensus.rs::OverlordConsensus::check_proof`: both parameters are
ignored and the result is unconditionally `Ok(())`. -/
def check_proof (_epochId : Nat) (_proof : Proof) : Except ConsensusError Unit :=
  .ok ()

/-- Modelled from the spec (§4.1, §4.3): the `ConsensusEngine` methods called
by `update_epoch` (`engine.rs` is not under src/; the spec describes each as a
thin 1:1 pass-through to a collaborator that "propagates collaborator errors
unchanged"). Each field is an oracle giving the outcome of the corresponding
collaborator call; collaborator errors are abstract (`Nat`).
`currentEpochId` is indexed by the read count, since `update_epoch` reads the
current epoch id once at entry (index 0) and possibly a second time after the
broadcast-interval delay (index 1). `delayResult` is the outcome of the
`futures_timer::Delay` await, whose error is rendered with `format!` by the
source (`String`). -/
structure Engine where
  currentEpochId : Nat → Except Nat Nat
  delayResult : Except String Unit
  epochById : Nat → Except Nat Epoch
  pullEpoch : Nat → Except Nat Epoch
  pullTxs : List Hash → Except Nat (List SignedTransaction)
  execTxs : List SignedTransaction → Except Nat Nat
  saveSignedTxs : List SignedTransaction → Except Nat Unit
  saveProof : Proof → Except Nat Unit
  saveEpoch : Epoch → Except Nat Unit
  saveReceipts : List Receipt → Except Nat Unit

/-- Observable events of a run of `update_epoch`, in the order the
corresponding collaborator calls are issued by `consensus.rs`.
`saveReceipts` is listed because the engine offers the call
(`adapter.rs::save_receipts`), so its absence from a trace is meaningful. -/
inductive SyncEvent where
  | getCurrentId
  | delay
  | lock
  | getEpoch : Nat → SyncEvent
  | pullEpoch : Nat → SyncEvent
  | pullTxs : List Hash → SyncEvent
  | exec : List SignedTransaction → SyncEvent
  | saveSignedTxs : List SignedTransaction → SyncEvent
  | saveReceipts : List Receipt → SyncEvent
  | saveProof : Proof → SyncEvent
  | saveEpoch : Epoch → SyncEvent
deriving DecidableEq, Repr

/-- One iteration of the sync loop of `consensus.rs::update_epoch`
(lines 95–124), for epoch id `id` with tracked hash `prevHash`: pull the
epoch, remember `tmp_prev_hash = epoch.header.pre_hash`, run `check_proof`,
compare `prev_hash` with `epoch.header.pre_hash` (mismatch returns
`SyncEpochHashErr(id)`), pull the signed transactions, execute them
(result discarded), save the signed transactions, save the proof carried in
the pulled epoch's header, save the epoch, and finally yield
`tmp_prev_hash` as the next tracked hash. Every `?` on an engine call
propagates the collaborator error (wrapped as `external`). -/
def syncStep (eng : Engine) (id : Nat) (prevHash : Hash) :
    Except ConsensusError Hash × List SyncEvent :=
  match eng.pullEpoch id with
  | .error e => (.error (.external e), [.pullEpoch id])
  | .ok epoch =>
    match check_proof id epoch.header.proof with
    | .error e => (.error e, [.pullEpoch id])
    | .ok _ =>
      if prevHash ≠ epoch.header.preHash then
        (.error (.syncEpochHashErr id), [.pullEpoch id])
      else
        match eng.pullTxs epoch.orderedTxHashes with
        | .error e =>
          (.error (.external e), [.pullEpoch id, .pullTxs epoch.orderedTxHashes])
        | .ok txs =>
          match eng.execTxs txs with
          | .error e =>
            (.error (.external e),
              [.pullEpoch id, .pullTxs epoch.orderedTxHashes, .exec txs])
          | .ok _ =>
            match eng.saveSignedTxs txs with
            | .error e =>
              (.error (.external e),
                [.pullEpoch id, .pullTxs epoch.orderedTxHashes, .exec txs,
                  .saveSignedTxs txs])
            | .ok _ =>
              match eng.saveProof epoch.header.proof with
              | .error e =>
                (.error (.external e),
                  [.pullEpoch id, .pullTxs epoch.orderedTxHashes, .exec txs,
                    .saveSignedTxs txs, .saveProof epoch.header.proof])
              | .ok _ =>
                match eng.saveEpoch epoch with
                | .error e =>
                  (.error (.external e),
                    [.pullEpoch id, .pullTxs epoch.orderedTxHashes, .exec txs,
                      .saveSignedTxs txs, .saveProof epoch.header.proof,
                      .saveEpoch epoch])
                | .ok _ =>
                  (.ok epoch.header.preHash,
                    [.pullEpoch id, .pullTxs epoch.orderedTxHashes, .exec txs,
                      .saveSignedTxs txs, .saveProof epoch.header.proof,
                      .saveEpoch epoch])

/-- The sync loop `for id in (current_epoch_id + 1)..(rich_epoch_id + 1)` of
`consensus.rs::update_epoch`, with the remaining iteration count as fuel:
each iteration runs `syncStep`; an `Err` aborts the loop (and the session)
immediately, otherwise the tracked hash is replaced by the step's
`tmp_prev_hash` and the loop continues with the next id. -/
def syncLoop (eng : Engine) : Nat → Nat → Hash →
    Except ConsensusError Unit × List SyncEvent
  | 0, _, _ => (.ok (), [])
  | fuel + 1, id, prevHash =>
    let step := syncStep eng id prevHash
    match step.1 with
    | .error e => (.error e, step.2)
    | .ok newPrev =>
      let rest := syncLoop eng fuel (id + 1) newPrev
      (rest.1, step.2 ++ rest.2)

/-- The synchronization part of `consensus.rs::update_epoch` (lines 87–126),
entered with the (possibly re-read) current epoch id and the rich epoch id:
acquire the engine lock, seed `prev_hash` from the header of epoch
`current + 1` obtained from storage (a failed lookup aborts the session via
`?`), then run the sync loop over `rich - current` iterations starting at
epoch id `current + 1`. -/
def syncSession (eng : Engine) (current rich : Nat) :
    Except ConsensusError Unit × List SyncEvent :=
  match eng.epochById (current + 1) with
  | .error e => (.error (.external e), [.lock, .getEpoch (current + 1)])
  | .ok ep =>
    let r := syncLoop eng (rich - current) (current + 1) ep.header.preHash
    (r.1, .lock :: .getEpoch (current + 1) :: r.2)

/-- `consensus.rs::update_epoch`: deserialize the rich epoch id (failure is
`DecodeErr(RichEpochID)`), read the current epoch id; if `current >= rich`
return `Ok`; if `current == rich - 1` wait one broadcast interval
(`BROADCAST_STATUS_INTERVAL`), re-read the current id and return `Ok` if
`rich <= current` now holds; otherwise run the sync session. `decode` is the
`bincode::deserialize` oracle for `FixedEpochID`. -/
def update_epoch (eng : Engine) (decode : Bytes → Option Nat) (msg : Bytes) :
    Except ConsensusError Unit × List SyncEvent :=
  match decode msg with
  | none => (.error (.decodeErr .richEpochID), [])
  | some richEpochId =>
    match eng.currentEpochId 0 with
    | .error e => (.error (.external e), [.getCurrentId])
    | .ok current0 =>
      if richEpochId ≤ current0 then
        (.ok (), [.getCurrentId])
      else if current0 = richEpochId - 1 then
        match eng.delayResult with
        | .error s => (.error (.other s), [.getCurrentId, .delay])
        | .ok _ =>
          match eng.currentEpochId 1 with
          | .error e => (.error (.external e), [.getCurrentId, .delay, .getCurrentId])
          | .ok current1 =>
            if richEpochId ≤ current1 then
              (.ok (), [.getCurrentId, .delay, .getCurrentId])
            else
              let r := syncSession eng current1 richEpochId
              (r.1, .getCurrentId :: .delay :: .getCurrentId :: r.2)
      else
        let r := syncSession eng current0 richEpochId
        (r.1, .getCurrentId :: r.2)

/-- `overlord::types::SignedProposal<FixedPill>` as delivered by
`set_proposal` (external collaborator type, opaque at this layer). -/
structure SignedProposal where
  value : Nat
deriving DecidableEq, Repr

/-- `overlord::types::SignedVote` as delivered by `set_vote` (external
collaborator type, opaque at this layer). -/
structure SignedVote where
  value : Nat
deriving DecidableEq, Repr

/-- `overlord::types::AggregatedVote` as delivered by `set_qc` (external
collaborator type, opaque at this layer). -/
structure AggregatedVote where
  value : Nat
deriving DecidableEq, Repr

/-- `overlord::types::OverlordMsg`: the messages `consensus.rs` hands to the
BFT handler via `send_msg`. -/
inductive OverlordMsg where
  | signedProposal : SignedProposal → OverlordMsg
  | signedVote : SignedVote → OverlordMsg
  | aggregatedVote : AggregatedVote → OverlordMsg
deriving DecidableEq, Repr

/-- `consensus.rs::set_proposal`: rlp-decode the payload (failure is
`DecodeErr(SignedProposal)`, nothing is sent), then hand the signed proposal
to the BFT handler (`send_msg`; a handler error is wrapped as
`OverlordErr`). `send` is the handler oracle, `decode` the rlp oracle; the
second component lists the messages delivered to the handler. -/
def set_proposal (send : OverlordMsg → Except Nat Unit)
    (decode : Bytes → Option SignedProposal) (proposal : Bytes) :
    Except ConsensusError Unit × List OverlordMsg :=
  match decode proposal with
  | none => (.error (.decodeErr .signedProposal), [])
  | some sp =>
    match send (.signedProposal sp) with
    | .error e => (.error (.overlordErr e), [.signedProposal sp])
    | .ok _ => (.ok (), [.signedProposal sp])

/-- `consensus.rs::set_vote`: same shape as `set_proposal` for signed votes
(`DecodeErr(SignedVote)` on decode failure). -/
def set_vote (send : OverlordMsg → Except Nat Unit)
    (decode : Bytes → Option SignedVote) (vote : Bytes) :
    Except ConsensusError Unit × List OverlordMsg :=
  match decode vote with
  | none => (.error (.decodeErr .signedVote), [])
  | some sv =>
    match send (.signedVote sv) with
    | .error e => (.error (.overlordErr e), [.signedVote sv])
    | .ok _ => (.ok (), [.signedVote sv])

/-- `consensus.rs::set_qc`: same shape as `set_proposal` for aggregated votes
(`DecodeErr(AggregateVote)` on decode failure). -/
def set_qc (send : OverlordMsg → Except Nat Unit)
    (decode : Bytes → Option AggregatedVote) (qc : Bytes) :
    Except ConsensusError Unit × List OverlordMsg :=
  match decode qc with
  | none => (.error (.decodeErr .aggregateVote), [])
  | some av =>
    match send (.aggregatedVote av) with
    | .error e => (.error (.overlordErr e), [.aggregatedVote av])
    | .ok _ => (.ok (), [.aggregatedVote av])

/-- The storage collaborator as consumed by
`adapter.rs::OverlordConsensusAdapter::get_current_epoch_id`:
`get_latest_proof` and `get_epoch_by_epoch_id` oracles (the storage crate is
an external collaborator here; errors abstract). `storedEpochs` records the
epochs held by the store, which `get_current_epoch_id` never consults. -/
structure Storage where
  getLatestProof : Except Nat Proof
  getEpochByEpochId : Nat → Except Nat Epoch
  storedEpochs : List Epoch

/-- `adapter.rs::OverlordConsensusAdapter::get_current_epoch_id`: read the
latest stored proof (propagating its error) and return its `epoch_id`
field. -/
def get_current_epoch_id (s : Storage) : Except Nat Nat :=
  match s.getLatestProof with
  | .error e => .error e
  | .ok res => .ok res.epochId

/-- The epoch ids of the pull-epoch events of a trace, in order. -/
def pulledIds (tr : List SyncEvent) : List Nat :=
  tr.filterMap fun e =>
    match e with
    | .pullEpoch id => some id
    | _ => none

/-- Whether an event is a save-receipts persistence call. -/
def isSaveReceiptsEv : SyncEvent → Bool
  | .saveReceipts _ => true
  | _ => false

/-- Whether an event is one of the persistence calls (save signed txs, save
receipts, save proof, save epoch). -/
def isPersistEv : SyncEvent → Bool
  | .saveSignedTxs _ => true
  | .saveReceipts _ => true
  | .saveProof _ => true
  | .saveEpoch _ => true
  | _ => false

/-- Whether a consensus error is the spec's `ProofInvalid`. -/
def errIsProofInvalid : ConsensusError → Bool
  | .proofInvalid _ => true
  | _ => false

/-- Whether a sync result is a `ProofInvalid` error. -/
def resultIsProofInvalid : Except ConsensusError Unit → Bool
  | .error e => errIsProofInvalid e
  | .ok _ => false

/-- `pulledIds` distributes over trace concatenation. -/
theorem pulledIds_append (a b : List SyncEvent) :
    pulledIds (a ++ b) = pulledIds a ++ pulledIds b :=
  List.filterMap_append a b _

/-- Every iteration of the sync loop, whether it succeeds or aborts, issues
exactly one epoch pull, for its own id. -/
theorem pulledIds_syncStep (eng : Engine) (id : Nat) (ph : Hash) :
    pulledIds (syncStep eng id ph).2 = [id] := by
  unfold syncStep
  repeat' split
  all_goals rfl

/-- The sync loop never waits: no delay event appears in an iteration's
trace. -/
theorem delay_notin_syncStep (eng : Engine) (id : Nat) (ph : Hash) :
    SyncEvent.delay ∉ (syncStep eng id ph).2 := by
  unfold syncStep
  repeat' split
  all_goals simp [pulledIds]

/-- The sync loop never waits: no delay event appears in its trace. -/
theorem delay_notin_syncLoop (eng : Engine) :
    ∀ fuel id ph, SyncEvent.delay ∉ (syncLoop eng fuel id ph).2 := by
  intro fuel
  induction fuel with
  | zero => intro id ph; simp [syncLoop]
  | succ n ih =>
    intro id ph
    simp only [syncLoop]
    cases hs : (syncStep eng id ph).1 with
    | error e => simpa using delay_notin_syncStep eng id ph
    | ok newPrev =>
      simp only [List.mem_append, not_or]
      exact ⟨delay_notin_syncStep eng id ph, ih (id + 1) newPrev⟩

/-- An iteration that aborts never yields the spec's `ProofInvalid` error:
the only error sources are collaborator failures (`external`) and the hash
chain check (`syncEpochHashErr`), `check_proof` being unconditionally
`Ok`. -/
theorem syncStep_error_not_proofInvalid (eng : Engine) (id : Nat) (ph : Hash)
    (e : ConsensusError) (h : (syncStep eng id ph).1 = .error e) :
    errIsProofInvalid e = false := by
  unfold syncStep at h
  simp only [check_proof] at h
  repeat' split at h
  all_goals simp only [] at h
  all_goals (try cases h)
  all_goals rfl

/-- The sync loop never yields the spec's `ProofInvalid` error. -/
theorem syncLoop_error_not_proofInvalid (eng : Engine) :
    ∀ fuel id ph e, (syncLoop eng fuel id ph).1 = .error e →
      errIsProofInvalid e = false := by
  intro fuel
  induction fuel with
  | zero => intro id ph e h; simp [syncLoop] at h
  | succ n ih =>
    intro id ph e h
    simp only [syncLoop] at h
    cases hs : (syncStep eng id ph).1 with
    | error e2 =>
      rw [hs] at h
      simp only [] at h
      injection h with he
      exact he ▸ syncStep_error_not_proofInvalid eng id ph e2 hs
    | ok newPrev =>
      rw [hs] at h
      simp only [] at h
      exact ih (id + 1) newPrev e h

/-- A failed sync session never yields the spec's `ProofInvalid` error. -/
theorem syncSession_error_not_proofInvalid (eng : Engine)
    (current rich : Nat) (e : ConsensusError)
    (h : (syncSession eng current rich).1 = .error e) :
    errIsProofInvalid e = false := by
  unfold syncSession at h
  cases hs : eng.epochById (current + 1) with
  | error e2 =>
    rw [hs] at h
    simp only [] at h
    cases h
    rfl
  | ok ep =>
    rw [hs] at h
    simp only [] at h
    exact syncLoop_error_not_proofInvalid eng _ _ _ e h

/-- `update_epoch` never yields the spec's `ProofInvalid` error, whatever
the collaborators do. -/
theorem update_epoch_not_proofInvalid (eng : Engine)
    (decode : Bytes → Option Nat) (msg : Bytes) :
    resultIsProofInvalid (update_epoch eng decode msg).1 = false := by
  have hres : ∀ current rich,
      resultIsProofInvalid (syncSession eng current rich).1 = false := by
    intro current rich
    cases h : (syncSession eng current rich).1 with
    | error e =>
      simpa [resultIsProofInvalid] using
        syncSession_error_not_proofInvalid eng current rich e h
    | ok u => simp [resultIsProofInvalid]
  unfold update_epoch
  cases hd : decode msg with
  | none => rfl
  | some rich =>
    cases hc : eng.currentEpochId 0 with
    | error e => rfl
    | ok c0 =>
      simp only []
      by_cases h1 : rich ≤ c0
      · simp [h1, resultIsProofInvalid]
      · rw [if_neg h1]
        by_cases h2 : c0 = rich - 1
        · rw [if_pos h2]
          cases hdel : eng.delayResult with
          | error s => rfl
          | ok u =>
            simp only []
            cases hc1 : eng.currentEpochId 1 with
            | error e => rfl
            | ok c1 =>
              simp only []
              by_cases h3 : rich ≤ c1
              · simp [h3, resultIsProofInvalid]
              · rw [if_neg h3]
                exact hres c1 rich
        · rw [if_neg h2]
          exact hres c0 rich

/-- A successful iteration of the sync loop ends with the tracked hash set to
the pulled epoch's `pre_hash` field (`tmp_prev_hash`), not to any hash of the
epoch itself. -/
theorem syncStep_ok_newPrev (eng : Engine) (id : Nat) (ph h' : Hash)
    (epoch : Epoch) (hpull : eng.pullEpoch id = .ok epoch)
    (hok : (syncStep eng id ph).1 = .ok h') :
    h' = epoch.header.preHash := by
  unfold syncStep at hok
  rw [hpull] at hok
  simp only [check_proof] at hok
  repeat' split at hok
  all_goals simp only [] at hok
  all_goals (try cases hok)
  all_goals rfl

/-- A sync loop run that reaches the end of its range has pulled exactly the
ids of its range, one each, in increasing order. -/
theorem syncLoop_ok_pulledIds (eng : Engine) :
    ∀ fuel id ph, (syncLoop eng fuel id ph).1 = .ok () →
      pulledIds (syncLoop eng fuel id ph).2 = List.range' id fuel := by
  intro fuel
  induction fuel with
  | zero => intro id ph _; rfl
  | succ n ih =>
    intro id ph h
    simp only [syncLoop] at h ⊢
    cases hs : (syncStep eng id ph).1 with
    | error e =>
      rw [hs] at h
      simp only [] at h
      cases h
    | ok newPrev =>
      rw [hs] at h
      simp only [] at h ⊢
      rw [pulledIds_append, pulledIds_syncStep, ih (id + 1) newPrev h,
        List.range'_succ]
      rfl

/-- Dropping the lock and storage-lookup events at the head of a session
trace does not change its pulled ids. -/
theorem pulledIds_cons_lock_getEpoch (n : Nat) (tr : List SyncEvent) :
    pulledIds (.lock :: .getEpoch n :: tr) = pulledIds tr :=
  rfl

/-- A sync session never waits: no delay event appears in its trace. -/
theorem delay_notin_syncSession (eng : Engine) (current rich : Nat) :
    SyncEvent.delay ∉ (syncSession eng current rich).2 := by
  unfold syncSession
  cases hs : eng.epochById (current + 1) with
  | error e => simp
  | ok ep =>
    simp only [List.mem_cons, not_or]
    exact ⟨by simp, by simp, delay_notin_syncLoop eng _ _ _⟩

/-- C9: `OverlordCrypto::verify_aggregated_signature` accepts every input and
`OverlordCrypto::aggregate_signatures` returns the empty byte string on every
input; the aggregated quorum-signature check never rejects any value. -/
theorem aggregated_signature_check_is_stub :
    (∀ c sigs voters, aggregate_signatures c sigs voters = .ok ([] : Bytes)) ∧
    ∀ c a, verify_aggregated_signature c a = .ok () :=
  ⟨fun _ _ _ => rfl, fun _ _ => rfl⟩

/-- A validator set for concrete scenarios. -/
def cVals : List Validator :=
  [{ address := 1, proposeWeight := 1, voteWeight := 1 }]

/-- Latest stored proof of the C10 scenario: its `epoch_id` is 7 even though
the store also holds an epoch with id 9. -/
def c10Proof : Proof :=
  { epochId := 7, round := 0, epochHash := 70, signature := [1], bitmap := [1] }

/-- An epoch with id 9 held by the C10 store, newer than the latest proof. -/
def c10Epoch : Epoch :=
  { header :=
      { epochId := 9, preHash := 80, timestamp := 0, stateRoot := 0,
        receiptRoot := [], cyclesUsed := 0, proposer := 1, proof := c10Proof,
        validators := cVals, version := 0 }
    orderedTxHashes := [] }

/-- A store whose latest proof lags its latest epoch: `get_latest_proof`
yields epoch id 7 while an epoch with id 9 is stored. -/
def c10Storage : Storage :=
  { getLatestProof := .ok c10Proof
    getEpochByEpochId := fun _ => .ok c10Epoch
    storedEpochs := [c10Epoch] }

/-- C10: `get_current_epoch_id` returns the `epoch_id` field of the latest
stored proof, and its result depends only on `get_latest_proof` — the epochs
held by the store (in particular the id of the latest stored epoch) are never
consulted. -/
theorem current_epoch_id_from_latest_proof (s : Storage) (p : Proof)
    (h : s.getLatestProof = .ok p) :
    get_current_epoch_id s = .ok p.epochId ∧
    ∀ t : Storage, t.getLatestProof = s.getLatestProof →
      get_current_epoch_id t = get_current_epoch_id s := by
  constructor
  · simp [get_current_epoch_id, h]
  · intro t ht
    simp [get_current_epoch_id, ht]

/-- Witness for C10: on the concrete store whose latest proof has epoch id 7
while an epoch with id 9 is stored, the current epoch id comes out as 7. -/
theorem current_epoch_id_from_latest_proof_witness :
    get_current_epoch_id c10Storage = .ok 7 :=
  (current_epoch_id_from_latest_proof c10Storage c10Proof rfl).1

/-- An all-ok engine for the C8 scenario (none of its fields is ever reached
when decoding fails). -/
def c8Engine : Engine :=
  { currentEpochId := fun _ => .ok 10
    delayResult := .ok ()
    epochById := fun _ => .ok c10Epoch
    pullEpoch := fun _ => .ok c10Epoch
    pullTxs := fun _ => .ok []
    execTxs := fun _ => .ok 0
    saveSignedTxs := fun _ => .ok ()
    saveProof := fun _ => .ok ()
    saveEpoch := fun _ => .ok ()
    saveReceipts := fun _ => .ok () }

/-- C8: on a payload that does not decode, `set_proposal`, `set_vote`,
`set_qc` and `update_epoch` each return the matching `DecodeErr`, deliver
nothing to the BFT handler, and start no synchronization (their event traces
are empty). -/
theorem decode_failure_drops_message
    (sendP sendV sendQ : OverlordMsg → Except Nat Unit)
    (decP : Bytes → Option SignedProposal) (decV : Bytes → Option SignedVote)
    (decQ : Bytes → Option AggregatedVote) (eng : Engine)
    (decU : Bytes → Option Nat) (p v q m : Bytes)
    (h1 : decP p = none) (h2 : decV v = none) (h3 : decQ q = none)
    (h4 : decU m = none) :
    set_proposal sendP decP p = (.error (.decodeErr .signedProposal), []) ∧
    set_vote sendV decV v = (.error (.decodeErr .signedVote), []) ∧
    set_qc sendQ decQ q = (.error (.decodeErr .aggregateVote), []) ∧
    update_epoch eng decU m = (.error (.decodeErr .richEpochID), []) := by
  refine ⟨?_, ?_, ?_, ?_⟩
  · simp [set_proposal, h1]
  · simp [set_vote, h2]
  · simp [set_qc, h3]
  · simp [update_epoch, h4]

/-- Witness for C8: concrete decoders that reject everything. -/
theorem decode_failure_drops_message_witness :
    set_proposal (fun _ => .ok ()) (fun _ => none) [] =
        (.error (.decodeErr .signedProposal), []) ∧
    set_vote (fun _ => .ok ()) (fun _ => none) [] =
        (.error (.decodeErr .signedVote), []) ∧
    set_qc (fun _ => .ok ()) (fun _ => none) [] =
        (.error (.decodeErr .aggregateVote), []) ∧
    update_epoch c8Engine (fun _ => none) [] =
        (.error (.decodeErr .richEpochID), []) :=
  decode_failure_drops_message (fun _ => .ok ()) (fun _ => .ok ())
    (fun _ => .ok ()) (fun _ => none) (fun _ => none) (fun _ => none)
    c8Engine (fun _ => none) [] [] [] [] rfl rfl rfl rfl

/-- C2 (amended): a successfully synced epoch is processed by exactly the
calls pull epoch, pull txs, execute, save signed txs, save proof, save epoch,
in this order; no receipts are saved during sync replay. -/
theorem sync_persistence_order (eng : Engine) (id : Nat) (ph : Hash)
    (epoch : Epoch) (txs : List SignedTransaction) (r : Nat)
    (hpull : eng.pullEpoch id = .ok epoch)
    (hph : ph = epoch.header.preHash)
    (htxs : eng.pullTxs epoch.orderedTxHashes = .ok txs)
    (hexec : eng.execTxs txs = .ok r)
    (hst : eng.saveSignedTxs txs = .ok ())
    (hsp : eng.saveProof epoch.header.proof = .ok ())
    (hse : eng.saveEpoch epoch = .ok ()) :
    syncStep eng id ph =
      (.ok epoch.header.preHash,
        [.pullEpoch id, .pullTxs epoch.orderedTxHashes, .exec txs,
          .saveSignedTxs txs, .saveProof epoch.header.proof,
          .saveEpoch epoch]) := by
  subst hph
  unfold syncStep
  rw [hpull]
  simp [check_proof, htxs, hexec, hst, hsp, hse]

/-- Proof carried by the epoch of the C2 scenario. -/
def c2Proof : Proof :=
  { epochId := 10, round := 0, epochHash := 100, signature := [1], bitmap := [1] }

/-- The epoch synced in the C2 scenario. -/
def c2Epoch : Epoch :=
  { header :=
      { epochId := 11, preHash := 100, timestamp := 0, stateRoot := 0,
        receiptRoot := [], cyclesUsed := 0, proposer := 1, proof := c2Proof,
        validators := cVals, version := 0 }
    orderedTxHashes := [] }

/-- Engine of the C2 scenario: every collaborator call succeeds and epoch 11
is available, so the one-epoch sync completes. -/
def c2Engine : Engine :=
  { currentEpochId := fun _ => .ok 10
    delayResult := .ok ()
    epochById := fun _ => .ok c2Epoch
    pullEpoch := fun _ => .ok c2Epoch
    pullTxs := fun _ => .ok []
    execTxs := fun _ => .ok 0
    saveSignedTxs := fun _ => .ok ()
    saveProof := fun _ => .ok ()
    saveEpoch := fun _ => .ok ()
    saveReceipts := fun _ => .ok () }

/-- The rich epoch id announced in the C2 scenario. -/
def c2Decode : Bytes → Option Nat := fun _ => some 11

/-- Counterexample to C2 as stated: a sync session that persists epoch 11
(it completes with `Ok` and a save-epoch event occurs) contains no
save-receipts step anywhere in its trace, so the claimed five-step sequence
"execute → save txs → save receipts → save proof → save epoch" is not what
the code performs. -/
theorem sync_has_no_receipt_save_counterexample :
    (update_epoch c2Engine c2Decode []).1 = .ok () ∧
    SyncEvent.saveEpoch c2Epoch ∈ (update_epoch c2Engine c2Decode []).2 ∧
    (update_epoch c2Engine c2Decode []).2.all
        (fun ev => !isSaveReceiptsEv ev) = true := by
  refine ⟨rfl, by decide, by decide⟩

/-- Witness for C2 (amended): the chosen engine performs the four persistence
steps in order for epoch 11. -/
theorem sync_persistence_order_witness :
    syncStep c2Engine 11 100 =
      (.ok c2Epoch.header.preHash,
        [.pullEpoch 11, .pullTxs c2Epoch.orderedTxHashes, .exec [],
          .saveSignedTxs [], .saveProof c2Epoch.header.proof,
          .saveEpoch c2Epoch]) :=
  sync_persistence_order c2Engine 11 100 c2Epoch [] 0 rfl rfl rfl rfl rfl rfl rfl

/-- The epoch already in storage at id 11 in the C4 scenario; its declared
previous hash (100) seeds `prev_hash`. -/
def c4Stored : Epoch :=
  { header :=
      { epochId := 11, preHash := 100, timestamp := 0, stateRoot := 0,
        receiptRoot := [], cyclesUsed := 0, proposer := 1, proof := c2Proof,
        validators := cVals, version := 0 }
    orderedTxHashes := [] }

/-- The epoch a forked peer returns for id 11 in the C4 scenario: its
`pre_hash` (999) differs from the tracked `prev_hash` (100). -/
def c4Bad : Epoch :=
  { header :=
      { epochId := 11, preHash := 999, timestamp := 0, stateRoot := 0,
        receiptRoot := [], cyclesUsed := 0, proposer := 1, proof := c2Proof,
        validators := cVals, version := 0 }
    orderedTxHashes := [] }

/-- Engine of the C4 scenario: current epoch id 10, stored epoch 11 declares
previous hash 100, but the pulled epoch 11 declares 999. -/
def c4Engine : Engine :=
  { currentEpochId := fun _ => .ok 10
    delayResult := .ok ()
    epochById := fun _ => .ok c4Stored
    pullEpoch := fun _ => .ok c4Bad
    pullTxs := fun _ => .ok []
    execTxs := fun _ => .ok 0
    saveSignedTxs := fun _ => .ok ()
    saveProof := fun _ => .ok ()
    saveEpoch := fun _ => .ok ()
    saveReceipts := fun _ => .ok () }

/-- The rich epoch id announced in the C4 scenario. -/
def c4Decode : Bytes → Option Nat := fun _ => some 12

/-- C4: when a pulled epoch's `pre_hash` differs from the tracked
`prev_hash`, the remaining sync loop — whatever its remaining range — stops
with `SyncEpochHashErr(id)` having issued only the one pull: no persistence
call for that epoch and no pull or persistence of any later epoch. In the
concrete two-epoch scenario the whole `update_epoch` run returns that error
with exactly this truncated trace. -/
theorem hash_chain_mismatch_aborts_session
    (eng : Engine) (fuel id : Nat) (ph : Hash) (epoch : Epoch)
    (hpull : eng.pullEpoch id = .ok epoch)
    (hne : epoch.header.preHash ≠ ph) :
    syncLoop eng (fuel + 1) id ph =
      (.error (.syncEpochHashErr id), [.pullEpoch id]) ∧
    update_epoch c4Engine c4Decode [] =
      (.error (.syncEpochHashErr 11),
        [.getCurrentId, .lock, .getEpoch 11, .pullEpoch 11]) := by
  constructor
  · have hstep : syncStep eng id ph =
        (.error (.syncEpochHashErr id), [.pullEpoch id]) := by
      unfold syncStep
      rw [hpull]
      simp [check_proof, Ne.symm hne]
    simp only [syncLoop]
    rw [hstep]
  · rfl

/-- Witness for C4: the forked-peer scenario at epoch 11. -/
theorem hash_chain_mismatch_aborts_session_witness :
    syncLoop c4Engine 1 11 100 =
      (.error (.syncEpochHashErr 11), [.pullEpoch 11]) ∧
    update_epoch c4Engine c4Decode [] =
      (.error (.syncEpochHashErr 11),
        [.getCurrentId, .lock, .getEpoch 11, .pullEpoch 11]) :=
  hash_chain_mismatch_aborts_session c4Engine 0 11 100 c4Bad rfl (by decide)

/-- A deliberately bogus proof in the C1 scenario: it claims epoch id 999
with an empty aggregated signature and empty voter bitmap, authenticating
nothing. -/
def c1BadProof : Proof :=
  { epochId := 999, round := 0, epochHash := 0, signature := [], bitmap := [] }

/-- The epoch pulled in the C1 scenario, carrying the bogus proof. -/
def c1Epoch : Epoch :=
  { header :=
      { epochId := 11, preHash := 100, timestamp := 0, stateRoot := 0,
        receiptRoot := [], cyclesUsed := 0, proposer := 1, proof := c1BadProof,
        validators := cVals, version := 0 }
    orderedTxHashes := [] }

/-- Engine of the C1 scenario: a one-epoch sync (current id 10, rich id 11)
whose pulled epoch carries the bogus proof; every collaborator call
succeeds. -/
def c1Engine : Engine :=
  { currentEpochId := fun _ => .ok 10
    delayResult := .ok ()
    epochById := fun _ => .ok c1Epoch
    pullEpoch := fun _ => .ok c1Epoch
    pullTxs := fun _ => .ok []
    execTxs := fun _ => .ok 0
    saveSignedTxs := fun _ => .ok ()
    saveProof := fun _ => .ok ()
    saveEpoch := fun _ => .ok ()
    saveReceipts := fun _ => .ok () }

/-- The rich epoch id announced in the C1 scenario. -/
def c1Decode : Bytes → Option Nat := fun _ => some 11

/-- C1: `check_proof` accepts every proof unconditionally, `update_epoch` can
never return the spec's `ProofInvalid` error, and in the concrete scenario an
epoch carrying a bogus proof (wrong epoch id, empty signature) is synced to
completion and persisted (`save_epoch` is invoked and the session returns
`Ok`). -/
theorem proof_check_stub_persists_unverified_epoch :
    (∀ id p, check_proof id p = .ok ()) ∧
    (∀ eng decode msg,
      resultIsProofInvalid (update_epoch eng decode msg).1 = false) ∧
    (update_epoch c1Engine c1Decode []).1 = .ok () ∧
    SyncEvent.saveEpoch c1Epoch ∈ (update_epoch c1Engine c1Decode []).2 := by
  refine ⟨fun _ _ => rfl, update_epoch_not_proofInvalid, rfl, by decide⟩

/-- Proof carried by epoch 11 of the C3 scenario. -/
def c3Proof11 : Proof :=
  { epochId := 10, round := 0, epochHash := 100, signature := [1], bitmap := [1] }

/-- Proof carried by epoch 12 of the C3 scenario. -/
def c3Proof12 : Proof :=
  { epochId := 11, round := 0, epochHash := 111, signature := [1], bitmap := [1] }

/-- Epoch 11 of the C3 scenario: a genuine chain member with
`pre_hash = 100` (the hash of epoch 10); its own hash is 111. -/
def c3Epoch11 : Epoch :=
  { header :=
      { epochId := 11, preHash := 100, timestamp := 0, stateRoot := 0,
        receiptRoot := [], cyclesUsed := 0, proposer := 1, proof := c3Proof11,
        validators := cVals, version := 0 }
    orderedTxHashes := [] }

/-- Epoch 12 of the C3 scenario: a genuine chain member with
`pre_hash = 111`, the hash of epoch 11 (distinct from epoch 11's own
`pre_hash` 100, as in any real chain). -/
def c3Epoch12 : Epoch :=
  { header :=
      { epochId := 12, preHash := 111, timestamp := 0, stateRoot := 0,
        receiptRoot := [], cyclesUsed := 0, proposer := 1, proof := c3Proof12,
        validators := cVals, version := 0 }
    orderedTxHashes := [] }

/-- Engine of the C3 scenario: current id 10, rich id 12; the peer serves the
genuine chain epochs 11 and 12; every collaborator call succeeds. -/
def c3Engine : Engine :=
  { currentEpochId := fun _ => .ok 10
    delayResult := .ok ()
    epochById := fun _ => .ok c3Epoch11
    pullEpoch := fun id => if id = 11 then .ok c3Epoch11 else .ok c3Epoch12
    pullTxs := fun _ => .ok []
    execTxs := fun _ => .ok 0
    saveSignedTxs := fun _ => .ok ()
    saveProof := fun _ => .ok ()
    saveEpoch := fun _ => .ok ()
    saveReceipts := fun _ => .ok () }

/-- The rich epoch id announced in the C3 scenario. -/
def c3Decode : Bytes → Option Nat := fun _ => some 12

/-- C3: after an epoch is persisted, the tracked `prev_hash` equals that
epoch's own `pre_hash` field (the hash of its parent), not the hash of the
epoch itself; consequently, syncing the genuine two-epoch chain 11–12 (where
`epoch12.pre_hash = 111 = hash(epoch11) ≠ 100 = epoch11.pre_hash`) aborts
with `SyncEpochHashErr(12)` even though epoch 11 was persisted. -/
theorem prev_hash_advances_to_pre_hash_not_epoch_hash
    (eng : Engine) (id : Nat) (ph h' : Hash) (epoch : Epoch)
    (hpull : eng.pullEpoch id = .ok epoch)
    (hok : (syncStep eng id ph).1 = .ok h') :
    h' = epoch.header.preHash ∧
    (update_epoch c3Engine c3Decode []).1 = .error (.syncEpochHashErr 12) ∧
    SyncEvent.saveEpoch c3Epoch11 ∈ (update_epoch c3Engine c3Decode []).2 :=
  ⟨syncStep_ok_newPrev eng id ph h' epoch hpull hok, rfl, by decide⟩

/-- Witness for C3: the first iteration of the concrete scenario ends with
the tracked hash 100 — epoch 11's `pre_hash`, not its hash 111. -/
theorem prev_hash_advances_to_pre_hash_witness :
    (100 : Hash) = c3Epoch11.header.preHash ∧
    (update_epoch c3Engine c3Decode []).1 = .error (.syncEpochHashErr 12) ∧
    SyncEvent.saveEpoch c3Epoch11 ∈ (update_epoch c3Engine c3Decode []).2 :=
  prev_hash_advances_to_pre_hash_not_epoch_hash c3Engine 11 100 100 c3Epoch11
    rfl rfl

/-- Engine of the C5 witness scenario: the announced rich id equals the
current id, so the run is a no-op (the remaining collaborators are never
reached). -/
def c5Engine : Engine :=
  { currentEpochId := fun _ => .ok 5
    delayResult := .ok ()
    epochById := fun _ => .ok c2Epoch
    pullEpoch := fun _ => .ok c2Epoch
    pullTxs := fun _ => .ok []
    execTxs := fun _ => .ok 0
    saveSignedTxs := fun _ => .ok ()
    saveProof := fun _ => .ok ()
    saveEpoch := fun _ => .ok ()
    saveReceipts := fun _ => .ok () }

/-- The rich epoch id announced in the C5 witness scenario. -/
def c5Decode : Bytes → Option Nat := fun _ => some 5

/-- C5: lag dispatch of `update_epoch` on rich id `R` with current id `C`.
If `R ≤ C` the run returns at once having only read the current id (no pull,
no delay). If `R = C + 1` the run delays one broadcast interval, re-reads the
current id, and returns with no pull when the re-read id has caught up.
If `C + 2 ≤ R` the run enters the sync session directly after the single
read: its trace is the session trace and contains no delay event. -/
theorem lag_dispatch (eng : Engine) (decode : Bytes → Option Nat)
    (msg : Bytes) (R C : Nat) (hdec : decode msg = some R)
    (hcur : eng.currentEpochId 0 = .ok C) :
    (R ≤ C → update_epoch eng decode msg = (.ok (), [.getCurrentId])) ∧
    (C + 1 = R → eng.delayResult = .ok () →
      ∀ c1, eng.currentEpochId 1 = .ok c1 → R ≤ c1 →
        update_epoch eng decode msg =
          (.ok (), [.getCurrentId, .delay, .getCurrentId])) ∧
    (C + 2 ≤ R →
      (update_epoch eng decode msg).2 =
          .getCurrentId :: (syncSession eng C R).2 ∧
        SyncEvent.delay ∉ (update_epoch eng decode msg).2) := by
  refine ⟨?_, ?_, ?_⟩
  · intro h
    simp [update_epoch, hdec, hcur, h]
  · intro h1 hdel c1 hc1 h4
    have hnle : ¬ R ≤ C := by omega
    have heq : C = R - 1 := by omega
    simp [update_epoch, hdec, hcur, hnle, heq, hdel, hc1, h4]
    omega
  · intro h
    have hnle : ¬ R ≤ C := by omega
    have hne : ¬ C = R - 1 := by omega
    have hu : update_epoch eng decode msg =
        ((syncSession eng C R).1,
          .getCurrentId :: (syncSession eng C R).2) := by
      simp [update_epoch, hdec, hcur, hnle, hne]
    rw [hu]
    exact ⟨rfl, by simp [delay_notin_syncSession eng C R]⟩

/-- Witness for C5: with rich id 5 equal to current id 5 the run is a no-op
with a single current-id read. -/
theorem lag_dispatch_witness :
    update_epoch c5Engine c5Decode [] = (.ok (), [.getCurrentId]) :=
  (lag_dispatch c5Engine c5Decode [] 5 5 rfl rfl).1 (by decide)

/-- Engine of the C6 scenario: storage has no epoch at id 11 (the lookup
fails with collaborator error 7); every other collaborator call succeeds. -/
def c6Engine : Engine :=
  { currentEpochId := fun _ => .ok 10
    delayResult := .ok ()
    epochById := fun _ => .error 7
    pullEpoch := fun _ => .ok c2Epoch
    pullTxs := fun _ => .ok []
    execTxs := fun _ => .ok 0
    saveSignedTxs := fun _ => .ok ()
    saveProof := fun _ => .ok ()
    saveEpoch := fun _ => .ok ()
    saveReceipts := fun _ => .ok () }

/-- The rich epoch id announced in the C6 scenario. -/
def c6Decode : Bytes → Option Nat := fun _ => some 12

/-- Counterexample to C6 as stated: with current id 10 and rich id 12, when
the only failing collaborator call is the storage lookup of epoch 11 (it is
absent), the session fails at once with that storage error — there is no
chain-tip fallback, no pull is ever issued, and the session aborts merely
because epoch `C+1` is absent. -/
theorem seed_fails_without_stored_epoch_counterexample :
    update_epoch c6Engine c6Decode [] =
      (.error (.external 7), [.getCurrentId, .lock, .getEpoch 11]) ∧
    pulledIds (update_epoch c6Engine c6Decode []).2 = [] :=
  ⟨rfl, rfl⟩

/-- C6 (amended): `prev_hash` is always seeded from the declared `pre_hash`
of the epoch `C+1` header in storage; when that lookup fails the session
aborts with the propagated storage error before any pull, and when it
succeeds the loop runs with exactly that seed. -/
theorem prev_hash_seed_requires_stored_epoch
    (eng : Engine) (C R e : Nat) (ep : Epoch) :
    (eng.epochById (C + 1) = .error e →
      syncSession eng C R = (.error (.external e), [.lock, .getEpoch (C + 1)])) ∧
    (eng.epochById (C + 1) = .ok ep →
      syncSession eng C R =
        ((syncLoop eng (R - C) (C + 1) ep.header.preHash).1,
          .lock :: .getEpoch (C + 1) ::
            (syncLoop eng (R - C) (C + 1) ep.header.preHash).2)) := by
  constructor <;> intro h <;> simp [syncSession, h]

/-- Witness for C6 (amended): the absent-epoch scenario aborts with the
storage error before any pull. -/
theorem prev_hash_seed_requires_stored_epoch_witness :
    syncSession c6Engine 10 12 =
      (.error (.external 7), [.lock, .getEpoch 11]) :=
  (prev_hash_seed_requires_stored_epoch c6Engine 10 12 7 c2Epoch).1 rfl

/-- Engine of the C7 witness scenario: a one-epoch sync that completes. -/
def c7Engine : Engine :=
  { currentEpochId := fun _ => .ok 10
    delayResult := .ok ()
    epochById := fun _ => .ok c2Epoch
    pullEpoch := fun _ => .ok c2Epoch
    pullTxs := fun _ => .ok []
    execTxs := fun _ => .ok 0
    saveSignedTxs := fun _ => .ok ()
    saveProof := fun _ => .ok ()
    saveEpoch := fun _ => .ok ()
    saveReceipts := fun _ => .ok () }

/-- C7: a sync session for current id `C` and rich id `R` that completes has
issued exactly one epoch pull per id, for every id from `C+1` to `R`
inclusive (the list `range' (C+1) (R-C)`), and those pulls occur in strictly
increasing id order. -/
theorem sync_pulls_each_missing_id_once (eng : Engine) (C R : Nat)
    (h : (syncSession eng C R).1 = .ok ()) :
    pulledIds (syncSession eng C R).2 = List.range' (C + 1) (R - C) ∧
    List.Pairwise (· < ·) (pulledIds (syncSession eng C R).2) := by
  unfold syncSession at h ⊢
  cases hs : eng.epochById (C + 1) with
  | error e =>
    rw [hs] at h
    simp only [] at h
    cases h
  | ok ep =>
    rw [hs] at h
    simp only [] at h ⊢
    have h2 := syncLoop_ok_pulledIds eng (R - C) (C + 1) ep.header.preHash h
    rw [pulledIds_cons_lock_getEpoch, h2]
    exact ⟨rfl, List.pairwise_lt_range' (C + 1) (R - C)⟩

/-- Witness for C7: the completing one-epoch session pulls exactly id 11. -/
theorem sync_pulls_each_missing_id_once_witness :
    pulledIds (syncSession c7Engine 10 11).2 = List.range' 11 1 ∧
    List.Pairwise (· < ·) (pulledIds (syncSession c7Engine 10 11).2) :=
  sync_pulls_each_missing_id_once c7Engine 10 11 rfl

end Muta
